import Mathlib

/-!
Shallow embedding of the `self-messaging-client` Go package (`package messaging`):
the request-correlation cache (`request_cache.go`), the nested-JWS correlation id
extraction (`utils.go`), the reader-loop frame routing, the authentication
handshake, token generation, the ACL protocol, the reconnect policy and the close
path (`client.go`), and the configuration options (`options.go`).

Machine integers do not occur in the modelled code paths; strings, maps and
channels are modelled by `String`, association lists and single-slot
`Option` buffers (Go channels of capacity one).
-/

namespace Messaging

/-- Wire message types (`msgproto.MsgType`). Proto3 enums are open: a frame may
carry any integer tag, modelled by `other`. -/
inductive MsgType where
  | MSG
  | AUTH
  | ACK
  | ERR
  | ACL
  | other (n : Nat)
deriving DecidableEq, Repr

/-- ACL commands (`msgproto.ACLCommand`). -/
inductive ACLCommand where
  | PERMIT
  | REVOKE
  | LIST
deriving DecidableEq, Repr

/-- The ciphertext of a message, at the level this layer inspects it
(`utils.go`: a JSON object with a base64url `payload` segment that itself
decodes to a JSON object).  JSON parsing and base64url decoding are external
library capabilities (gjson, encoding/base64); a ciphertext value carries the
outcome of each step the source performs on it:
`payloadField` is what `gjson.GetBytes(data, "payload").String()` returns
(`""` when the field is absent or not a string), and `decoded?` is the result
of base64url-decoding that string and reading the decoded bytes as a JSON
object of string fields (`none` models a base64 decode error). -/
structure Ciphertext where
  payloadField : String
  decoded? : Option (List (String × String))
deriving DecidableEq, Repr

/-- `gjson.GetBytes(obj, key).String()` on a decoded JSON object of string
fields: the field's string value, `""` when absent. -/
def jsonGetString (obj : List (String × String)) (key : String) : String :=
  (obj.lookup key).getD ""

/-- `getJWSResponseID` from `utils.go`: read the `payload` field of the
ciphertext, return `""` when it is empty; base64url-decode it, return `""` on
a decode error; otherwise return the `cid` field of the decoded payload. -/
def getJWSResponseID (data : Ciphertext) : String :=
  let encodedPayload := data.payloadField
  if encodedPayload = "" then
    encodedPayload
  else
    match data.decoded? with
    | none => ""
    | some payload => jsonGetString payload "cid"

/-- `msgproto.Message`. -/
structure Message where
  id : String
  type : MsgType
  sender : String
  recipient : String
  ciphertext : Ciphertext
deriving DecidableEq, Repr

/-- `msgproto.Notification`: success/failure responses (`{id, type, error}`). -/
structure Notification where
  id : String
  type : MsgType
  error : String
deriving DecidableEq, Repr

/-- The payload bytes of an ACL frame, at the level this layer handles them:
outbound PERMIT/REVOKE frames carry `[]byte(signedPayload.FullSerialize())`, a
JWS envelope over a claim set (signing and serialization are opaque external
capabilities, so the envelope is modelled by the claim set it signs); other
payloads are opaque bytes. -/
inductive AclPayload where
  | signedClaims (claims : List (String × String))
  | opaqueBytes (s : String)
deriving DecidableEq, Repr

/-- `msgproto.AccessControlList` frame. -/
structure AccessControlList where
  id : String
  type : MsgType
  command : ACLCommand
  payload : AclPayload
deriving DecidableEq, Repr

/-- A decoded typed frame body (`proto.Message` values routed by the reader and
delivered through the correlation cache). -/
inductive ProtoBody where
  | message (m : Message)
  | notif (n : Notification)
  | accessControlList (a : AccessControlList)
deriving DecidableEq, Repr

/-- `msgproto.Header`: the minimal prefix `{id, type}` of any frame. -/
structure Header where
  id : String
  type : MsgType
deriving DecidableEq, Repr

/-! ## Request cache (`request_cache.go`)

`requestCache.requests` is a `map[string]chan proto.Message` where every
channel has capacity one; modelled as an association list from id to a
single-slot buffer (`none` = empty channel, `some m` = one buffered value).
`Register` always replaces the entry, so keys stay unique. -/

/-- The direct correlation table: id to a capacity-one channel buffer. -/
abbrev requestCache := List (String × Option ProtoBody)

namespace requestCache

/-- `delete(rc.requests, reqID)`. -/
def erase (reqID : String) (rc : requestCache) : requestCache :=
  rc.filter (fun p => p.1 ≠ reqID)

/-- `Register` from `request_cache.go`: `rc.requests[reqID] = make(chan proto.Message, 1)` —
insert a fresh empty single-slot channel under `reqID`, replacing any existing entry. -/
def Register (reqID : String) (rc : requestCache) : requestCache :=
  (reqID, none) :: erase reqID rc

/-- `Send` from `request_cache.go`: if a channel is registered under `reqID`,
deliver `m` into it; otherwise the value is discarded.  (When the capacity-one
channel already holds a value the Go send would block while holding the lock;
no modelled call path reaches that case, and the buffer is left unchanged.) -/
def Send (reqID : String) (m : ProtoBody) (rc : requestCache) : requestCache :=
  if rc.lookup reqID = some none then
    rc.map (fun p => if p.1 = reqID then (p.1, some m) else p)
  else
    rc

/-- `Wait` from `request_cache.go`: read the channel under `reqID` (a missing
key yields a nil channel, whose read blocks until the timeout); return the
buffered value if one was delivered within the timeout, otherwise the timeout
error; in either case the deferred `delete` removes the entry.  The model's
state already contains every `Send` that happened before the timeout elapsed,
so an empty buffer means no resolve occurred within the timeout. -/
def Wait (reqID : String) (rc : requestCache) :
    Except String ProtoBody × requestCache :=
  let result : Except String ProtoBody :=
    match rc.lookup reqID with
    | some (some m) => .ok m
    | some none => .error "request timed out"
    | none => .error "request timed out"
  (result, erase reqID rc)

end requestCache

end Messaging

namespace Messaging

/-! ## Nested (JWS) correlation table

The JWS-keyed methods `registerJWS`, `sendJWS`, `waitJWS` and `cancelJWS` are
called from `client.go` but their definitions are not among the provided
sources; they are modelled from the spec (§4.4: same contract as the direct
table, channels carrying `Message`; §9: `sendJWS`'s return value is hard-coded
`false` even when a waiter exists and receives the value). -/

/-- The nested correlation table: JWS `cid` to a capacity-one channel buffer
of `Message`. -/
abbrev jwsCache := List (String × Option Message)

namespace jwsCache

/-- Modelled from the spec: `delete` on the nested table (the JWS table's
methods are absent from the provided sources). -/
def erase (id : String) (rc : jwsCache) : jwsCache :=
  rc.filter (fun p => p.1 ≠ id)

/-- Modelled from the spec: `registerJWS` is absent from the provided sources;
per §4.4 `register(id)` creates a single-slot waiter under `id`, replacing any
existing entry. -/
def registerJWS (id : String) (rc : jwsCache) : jwsCache :=
  (id, none) :: erase id rc

/-- Modelled from the spec: `sendJWS` is absent from the provided sources; per
§4.4 `resolve(id, value)` hands the value to the waiter when one exists, and
per the §9 design note its returned delivered-flag is hard-coded `false` even
when a waiter exists and receives the value. -/
def sendJWS (id : String) (m : Message) (rc : jwsCache) : jwsCache × Bool :=
  if rc.lookup id = some none then
    (rc.map (fun p => if p.1 = id then (p.1, some m) else p), false)
  else
    (rc, false)

/-- Modelled from the spec: `cancelJWS` is absent from the provided sources;
per §4.4 `cancel(id)` removes a waiter without delivering. -/
def cancelJWS (id : String) (rc : jwsCache) : jwsCache :=
  erase id rc

/-- Modelled from the spec: `waitJWS` is absent from the provided sources; per
§4.4 `await(id, timeout)` blocks until a resolve delivers or the timeout
elapses and removes the entry either way. -/
def waitJWS (id : String) (rc : jwsCache) :
    Except String Message × jwsCache :=
  let result : Except String Message :=
    match rc.lookup id with
    | some (some m) => .ok m
    | some none => .error "request timed out"
    | none => .error "request timed out"
  (result, erase id rc)

end jwsCache

/-! ## Reader loop (`client.go`, `Client.reader`)

One iteration of the reader loop on one inbound frame.  A raw frame is
modelled by the outcomes of the decode attempts the source may perform on its
bytes: `proto.Unmarshal` into a `Header`, and into each typed body
(`none` = the unmarshal returns an error). -/

/-- An inbound raw frame, given by the decode outcomes of its bytes. -/
structure Frame where
  header? : Option Header
  msgBody? : Option Message
  notifBody? : Option Notification
  aclBody? : Option AccessControlList
deriving DecidableEq, Repr

/-- The state the reader loop routes into: the two correlation tables and the
unsolicited-inbox queue (`c.recv`, enqueued at the tail). -/
structure Tables where
  direct : requestCache
  nested : jwsCache
  inbox : List Message
deriving DecidableEq, Repr

/-- Outcome of one reader-loop iteration on one frame. -/
inductive ReaderOutcome where
  | dropped                -- a decode failed: `continue`, frame skipped
  | panicked               -- `proto.Unmarshal(data, m)` was called with `m` nil
  | routed (t : Tables)    -- the frame was routed; `t` is the updated state
deriving DecidableEq, Repr

/-- One iteration of `Client.reader` on frame `f` (`client.go`): decode the
`Header` (`continue` on error); switch on `hdr.Type` to pick the body type —
for `MSG` a `Message`, for `ACL` an `AccessControlList`, for `ACK`/`ERR` a
`Notification`, and for any other type `m` stays nil, so the second
`proto.Unmarshal(data, m)` calls `Reset` on a nil interface and panics; on a
body decode error `continue`; then route: `ACK`/`ERR`/`ACL` resolve the
direct table by `hdr.Id`; `MSG` extracts the nested id from the ciphertext,
resolves the nested table, and enqueues onto the inbox when `sendJWS`
reported not-delivered. -/
def readerStep (t : Tables) (f : Frame) : ReaderOutcome :=
  match f.header? with
  | none => .dropped
  | some hdr =>
    match hdr.type with
    | .MSG =>
      match f.msgBody? with
      | none => .dropped
      | some msg =>
        let msgID := getJWSResponseID msg.ciphertext
        let (nested, ok) := jwsCache.sendJWS msgID msg t.nested
        if ok then
          .routed { t with nested := nested }
        else
          .routed { t with nested := nested, inbox := t.inbox ++ [msg] }
    | .ACL =>
      match f.aclBody? with
      | none => .dropped
      | some a =>
        .routed { t with direct := requestCache.Send hdr.id (.accessControlList a) t.direct }
    | .ACK =>
      match f.notifBody? with
      | none => .dropped
      | some n =>
        .routed { t with direct := requestCache.Send hdr.id (.notif n) t.direct }
    | .ERR =>
      match f.notifBody? with
      | none => .dropped
      | some n =>
        .routed { t with direct := requestCache.Send hdr.id (.notif n) t.direct }
    | _ => .panicked

/-! ## Authentication handshake (`client.go`, `Client.authenticate`) -/

/-- Transport and codec effects of one `authenticate` run: the outcome of
`proto.Marshal(&auth)`, of `ws.WriteMessage`, of `ws.ReadMessage`, and of
`proto.Unmarshal(data, &resp)` on the single reply frame (`none` in
`replyDecodeErr?` means the reply decoded as a `Notification`). -/
structure AuthEnv where
  marshalErr? : Option String
  writeErr? : Option String
  readErr? : Option String
  replyDecodeErr? : Option String
  reply : Notification
deriving Repr

/-- `Client.authenticate`: marshal and send the AUTH frame, block for exactly
one reply frame, decode it as a `Notification`, then switch on its type:
`ACK` succeeds, `ERR` fails with the server-supplied error text, any other
type fails with `"unknown authentication error"`. -/
def authenticate (env : AuthEnv) : Except String Unit :=
  match env.marshalErr? with
  | some e => .error e
  | none =>
  match env.writeErr? with
  | some e => .error e
  | none =>
  match env.readErr? with
  | some e => .error e
  | none =>
  match env.replyDecodeErr? with
  | some e => .error e
  | none =>
    match env.reply.type with
    | .ACK => .ok ()
    | .ERR => .error env.reply.error
    | _ => .error "unknown authentication error"

/-! ## `Client.request` and `Client.Send` (`client.go`) -/

/-- Effects of one `Client.request` run: the outcome of `proto.Marshal(m)`,
the write outcome reported back on the request's response channel by the
writer loop, and what the reader loop resolved for this id before the wait's
timeout elapsed (`none` = no correlated reply arrived in time). -/
structure RequestEnv where
  marshalErr? : Option String
  writeErr? : Option String
  resolved? : Option ProtoBody
deriving Repr

/-- `Client.request`: fail with `"connection is closed"` when the closed flag
is set; marshal the message (fail on error); `Register` the id on the direct
table; submit to the writer and read the write outcome (fail on error);
then `Wait` on the direct table for the correlated reply.  The reader's
concurrent resolve for this id, when one arrives within the timeout, is
`env.resolved?`, delivered through `requestCache.Send` between registration
and the wait. -/
def request (closed : Bool) (env : RequestEnv) (id : String) (rc : requestCache) :
    Except String ProtoBody × requestCache :=
  if closed then
    (.error "connection is closed", rc)
  else
    match env.marshalErr? with
    | some e => (.error e, rc)
    | none =>
      let rc := requestCache.Register id rc
      match env.writeErr? with
      | some e => (.error e, rc)
      | none =>
        let rc :=
          match env.resolved? with
          | some m => requestCache.Send id m rc
          | none => rc
        requestCache.Wait id rc

/-- `Client.Send`: fail immediately with `"connection is closed"` when the
session is closed; otherwise `request` the message by its id; when the
resolved reply is a `Notification`, `ACK` yields success and `ERR` yields the
server's error text; any other resolved value yields success. -/
def Send (closed : Bool) (env : RequestEnv) (m : Message) (rc : requestCache) :
    Except String Unit × requestCache :=
  if closed then
    (.error "connection is closed", rc)
  else
    match request closed env m.id rc with
    | (.error e, rc) => (.error e, rc)
    | (.ok resp, rc) =>
      match resp with
      | .notif n =>
        if n.type = .ACK then
          (.ok (), rc)
        else if n.type = .ERR then
          (.error n.error, rc)
        else
          (.ok (), rc)
      | _ => (.ok (), rc)

/-! ## Reconnect policy (`client.go`, `Client.tryReconnect`) -/

/-- Websocket close code for a normal closure (`websocket.CloseNormalClosure`). -/
def CloseNormalClosure : Nat := 1000

/-- Websocket close code for an abnormal closure (`websocket.CloseAbnormalClosure`). -/
def CloseAbnormalClosure : Nat := 1006

/-- A Go error value as `tryReconnect`'s type switch classifies it: an error
implementing `net.Error` (with its `Timeout()` result), a
`*websocket.CloseError` (with its close code), or an error of any other type. -/
inductive GoError where
  | netErr (timeout : Bool) (msg : String)
  | closeErr (code : Nat) (msg : String)
  | otherErr (msg : String)
deriving DecidableEq, Repr

/-- `Client.tryReconnect`, reduced to whether the retry loop is entered: when
the reconnect flag is off, return; in the type switch, a `net.Error` returns
unless `Timeout()`, a `*websocket.CloseError` returns unless its code is
`CloseAbnormalClosure`, and the `default` branch only logs the unknown error
type and falls through — so control reaches the retry loop, which attempts
`setup()` up to `maxretries` times. -/
def tryReconnectAttempts (reconnect : Bool) (err : GoError) : Bool :=
  if !reconnect then
    false
  else
    match err with
    | .netErr timeout _ => if !timeout then false else true
    | .closeErr code _ => if code ≠ CloseAbnormalClosure then false else true
    | .otherErr _ => true

/-- The reconnect-triggering condition as the claim states it: a
transport-level timeout error, or an abnormal-closure control code from the
peer; every other error makes no attempt. -/
def specQualifiesForReconnect (err : GoError) : Bool :=
  match err with
  | .netErr timeout _ => timeout
  | .closeErr code _ => code = CloseAbnormalClosure
  | .otherErr _ => false

/-- The reconnect-triggering condition as amended: additionally, any error
that is neither a `net.Error` nor a `*websocket.CloseError` (the type
switch's `default` branch) enters the retry loop. -/
def amendedReconnectQualifies (err : GoError) : Bool :=
  match err with
  | .netErr timeout _ => timeout
  | .closeErr code _ => code = CloseAbnormalClosure
  | .otherErr _ => true

/-! ## Token generation (`client.go`, `Client.generateToken`) -/

/-- Private-key material as `generateToken`/`acl` consume it: the outcome of
`base64.RawStdEncoding.DecodeString(c.privateKey)` (an external stdlib
capability).  `decodedBytes` are the bytes the decoder returned — on a decode
error only the bytes decoded before the error — and `decodeOk` is whether the
decoder's error return was nil; the source discards that error return. -/
structure PrivateKeyMaterial where
  decodedBytes : List Nat
  decodeOk : Bool
deriving DecidableEq, Repr

/-- `ed25519.SeedSize`: `ed25519.NewKeyFromSeed` panics on any seed whose
length differs from it. -/
def ed25519SeedSize : Nat := 32

/-- Outcomes of signer-library calls during one run: `jose.NewSigner`,
`signer.Sign`, and `CompactSerialize`/`FullSerialize` (`none` = success). -/
structure SignEnv where
  newSignerErr? : Option String
  signErr? : Option String
  serializeErr? : Option String
deriving Repr

/-- Outcome of `Client.generateToken`: a runtime panic, a returned error, or
success. -/
inductive TokenOutcome where
  | panicked (msg : String)
  | errored (e : String)
  | succeeded
deriving DecidableEq, Repr

/-- `Client.generateToken`: `pks, _ := base64.RawStdEncoding.DecodeString(...)`
discards the decode error; `ed25519.NewKeyFromSeed(pks)` panics when the seed
length is not `ed25519.SeedSize`; afterwards each signer-library error is
checked and returned to the caller.  (The `json.Marshal` error of the claim
set is also discarded: its `err` is overwritten unchecked on the next line.) -/
def generateToken (privateKey : PrivateKeyMaterial) (env : SignEnv) : TokenOutcome :=
  let pks := privateKey.decodedBytes
  if pks.length ≠ ed25519SeedSize then
    .panicked "ed25519: bad seed length"
  else
    match env.newSignerErr? with
    | some e => .errored e
    | none =>
      match env.signErr? with
      | some e => .errored e
      | none =>
        match env.serializeErr? with
        | some e => .errored e
        | none => .succeeded

/-! ## ACL protocol (`client.go`, `Client.acl` and its public wrappers) -/

/-- `Format(time.RFC3339)` on a unix-seconds time value, modelled as an
injective rendering (the concrete textual format is a stdlib capability the
modelled code never inspects). -/
def fmtRFC3339 (t : Nat) : String := toString t

/-- The mandate claim set `Client.acl` builds: `iss` = the client's selfID,
`exp` = `time.Now().Add(time.Minute)` in RFC3339, `jti` = a fresh uuid,
`acl_source` = the target pattern, plus `acl_exp` when an expiry was given.
(A Go map is unordered; the claims are read back only by key lookup.) -/
def aclRule (selfID : String) (now : Nat) (jti : String) (target : String)
    (exp : Option Nat) : List (String × String) :=
  let rule := [("iss", selfID), ("exp", fmtRFC3339 (now + 60)),
               ("jti", jti), ("acl_source", target)]
  match exp with
  | some e => rule ++ [("acl_exp", fmtRFC3339 e)]
  | none => rule

/-- Environment of one `Client.acl` run: the client's identity, the current
time, the two freshly generated uuids (`jti` and the frame id), the key
material, the codec/signer outcomes, and the outcome of the correlated
`request` (what the server replied, or the transport/timeout error). -/
structure AclEnv where
  selfID : String
  now : Nat
  jti : String
  frameID : String
  privateKey : PrivateKeyMaterial
  marshalErr? : Option String
  newSignerErr? : Option String
  signErr? : Option String
  requestResult : Except String ProtoBody
deriving Repr

/-- Outcome of `Client.acl`: a runtime panic, a failure before the frame was
sent, or the sent frame together with the reply interpretation. -/
inductive AclOutcome where
  | panicked (msg : String)
  | earlyErr (e : String)
  | sent (frame : AccessControlList) (result : Except String Unit)
deriving Repr

/-- `Client.acl`: build the mandate claim set; `json.Marshal` it (fail on
error); decode the private key discarding the error and derive the signing
key (`ed25519.NewKeyFromSeed` panics on a bad seed length); create the signer
and sign (fail on either error); wrap the signature in an ACL frame with the
given command and a fresh id; send it as a correlated request; then interpret
the reply: a non-`Notification` is `"received invalid response from server"`,
`ACK` succeeds, `ERR` fails with the server's error text, and any other
type is `"unknown response from server"`. -/
def acl (action : ACLCommand) (selfID : String) (exp : Option Nat)
    (env : AclEnv) : AclOutcome :=
  let rule := aclRule env.selfID env.now env.jti selfID exp
  match env.marshalErr? with
  | some e => .earlyErr e
  | none =>
    let pks := env.privateKey.decodedBytes
    if pks.length ≠ ed25519SeedSize then
      .panicked "ed25519: bad seed length"
    else
      match env.newSignerErr? with
      | some e => .earlyErr e
      | none =>
        match env.signErr? with
        | some e => .earlyErr e
        | none =>
          let frame : AccessControlList :=
            { id := env.frameID, type := .ACL, command := action,
              payload := .signedClaims rule }
          match env.requestResult with
          | .error e => .sent frame (.error e)
          | .ok resp =>
            match resp with
            | .notif n =>
              if n.type = .ACK then
                .sent frame (.ok ())
              else if n.type = .ERR then
                .sent frame (.error n.error)
              else
                .sent frame (.error "unknown response from server")
            | _ => .sent frame (.error "received invalid response from server")

/-- `Client.PermitAll`: `acl(PERMIT, "*", nil)`. -/
def PermitAll (env : AclEnv) : AclOutcome :=
  acl .PERMIT "*" none env

/-- `Client.PermitSender`: `acl(PERMIT, selfID, &exp)`. -/
def PermitSender (selfID : String) (exp : Nat) (env : AclEnv) : AclOutcome :=
  acl .PERMIT selfID (some exp) env

/-- `Client.BlockSender`: `acl(REVOKE, selfID, nil)`. -/
def BlockSender (selfID : String) (env : AclEnv) : AclOutcome :=
  acl .REVOKE selfID none env

/-! ## Close path (`client.go`: `Close`, `close`, `writer`, `reader`)

`c.closewriter` is an unbuffered channel: a send on it completes only by
rendezvous with the writer loop's `select`.  The model tracks which loops are
still running, whether the socket is open, and the atomic closed flag, and
follows the sequential schedule in which each goroutine reacts to an event
before the next external call is made. -/

/-- Liveness state of one client's goroutines and socket. -/
structure LoopState where
  writerAlive : Bool
  readerAlive : Bool
  wsOpen : Bool
  closedFlag : Bool
deriving DecidableEq, Repr

/-- The writer loop's handling of one `closewriter` event: write a close
control frame; on a write error, `c.close()` and exit the loop; on success,
return to the loop top, which exits when the closed flag is set. -/
def writerHandleCloseEvent (s : LoopState) : LoopState :=
  let s := if s.wsOpen then s else { s with writerAlive := false }
  if s.closedFlag then { s with writerAlive := false } else s

/-- `c.closewriter <- true`: an unbuffered send, completing only when the
writer loop is alive to receive it; `none` means no receiver exists and the
send blocks forever. -/
def closewriterSend (s : LoopState) : Option LoopState :=
  if s.writerAlive then some (writerHandleCloseEvent s) else none

/-- `Client.Close`: send on `closewriter`, sleep, then close the socket;
`none` means the call never returns. -/
def ClientClose (s : LoopState) : Option LoopState :=
  match closewriterSend s with
  | none => none
  | some s1 => some { s1 with wsOpen := false }

/-- The private `Client.close`: return when the closed flag is already set;
otherwise set it and call `Close`. -/
def clientCloseInternal (s : LoopState) : Option LoopState :=
  if s.closedFlag then
    some s
  else
    ClientClose { s with closedFlag := true }

/-- The reader loop's read-failure path (reconnect disabled): `c.close()`,
`c.tryReconnect(err)` (which returns at once), then the goroutine exits. -/
def readerOnReadError (s : LoopState) : Option LoopState :=
  match clientCloseInternal s with
  | none => none
  | some s1 => some { s1 with readerAlive := false }

/-- A freshly connected client: both loops running, socket open, closed flag
clear. -/
def runningClient : LoopState :=
  { writerAlive := true, readerAlive := true, wsOpen := true, closedFlag := false }

/-- Two sequential `Close()` calls in the canonical schedule: the first
`Close` returns after closing the socket; the reader then observes the failed
read and runs its closure path; the second `Close` is then issued.  `none`
means one of the steps blocks forever. -/
def closeTwice : Option LoopState :=
  match ClientClose runningClient with
  | none => none
  | some s1 =>
    match readerOnReadError s1 with
    | none => none
    | some s2 => ClientClose s2

/-! ## Configuration options (`options.go`) -/

/-- The configuration fields of `Client` the option builders touch. -/
structure ClientConfig where
  sendBuf : Nat
  recvBuf : Nat
  reconnect : Bool
  deadline : Nat
deriving DecidableEq, Repr

/-- `SendBuffer(sz)`: replaces the send queue with one of capacity `sz`. -/
def SendBuffer (sz : Nat) (c : ClientConfig) : Except String ClientConfig :=
  .ok { c with sendBuf := sz }

/-- `ReceiveBuffer(sz)`: replaces the receive queue with one of capacity `sz`. -/
def ReceiveBuffer (sz : Nat) (c : ClientConfig) : Except String ClientConfig :=
  .ok { c with recvBuf := sz }

/-- `AutoReconnect(enabled)` from `options.go`: the option body assigns
`c.reconnect = true` without reading `enabled`. -/
def AutoReconnect (enabled : Bool) (c : ClientConfig) : Except String ClientConfig :=
  .ok { c with reconnect := true }

/-- `ReadDeadline(deadline)`: sets the read deadline. -/
def ReadDeadline (deadline : Nat) (c : ClientConfig) : Except String ClientConfig :=
  .ok { c with deadline := deadline }

/-- A sample inbound message whose ciphertext's payload segment decodes to a
JSON object with `cid = "cid1"`. -/
def sampleNestedMsg : Message :=
  { id := "m9", type := .MSG, sender := "alice", recipient := "bob",
    ciphertext := { payloadField := "cGF5bG9hZA",
                    decoded? := some [("cid", "cid1")] } }

/-! ## Helper lemmas on the association-list tables -/

theorem lookup_filter_ne {α : Type} (id : String) (l : List (String × α)) :
    (l.filter (fun p => p.1 ≠ id)).lookup id = none := by
  simp
  exact fun a b _ hne he => hne he.symm

theorem map_resolve_filter_ne {α : Type} (id : String) (v : α)
    (l : List (String × α)) :
    (l.filter (fun p => p.1 ≠ id)).map
        (fun p => if p.1 = id then (p.1, v) else p) =
      l.filter (fun p => p.1 ≠ id) := by
  induction l with
  | nil => rfl
  | cons hd tl ih =>
    rw [List.filter_cons]
    by_cases h : hd.1 = id
    · rw [if_neg (by simp [h])]
      exact ih
    · rw [if_pos (by simp only [decide_eq_true_eq]; exact h), List.map_cons,
          if_neg h, ih]

theorem lookup_Register (id : String) (rc : requestCache) :
    (requestCache.Register id rc).lookup id = some none := by
  simp [requestCache.Register, List.lookup_cons]

theorem Send_Register (id : String) (m : ProtoBody) (rc : requestCache) :
    requestCache.Send id m (requestCache.Register id rc) =
      (id, some m) :: requestCache.erase id rc := by
  rw [requestCache.Send, if_pos (lookup_Register id rc)]
  show ((id, none) :: requestCache.erase id rc).map _ = _
  rw [List.map_cons, if_pos rfl]
  rw [requestCache.erase, map_resolve_filter_ne]

theorem Wait_after_resolve_fst (id : String) (m : ProtoBody) (rc : requestCache) :
    (requestCache.Wait id
        (requestCache.Send id m (requestCache.Register id rc))).1 = .ok m := by
  rw [Send_Register]
  simp [requestCache.Wait, List.lookup_cons]

theorem Wait_erases (id : String) (rc : requestCache) :
    (requestCache.Wait id rc).2.lookup id = none := by
  show (requestCache.erase id rc).lookup id = none
  rw [requestCache.erase]
  exact lookup_filter_ne id rc

theorem Send_resolved_fst (b : ProtoBody) (m : Message) (rc : requestCache) :
    (Send false { marshalErr? := none, writeErr? := none, resolved? := some b }
        m rc).1 =
      match b with
      | .notif n =>
        if n.type = .ACK then .ok ()
        else if n.type = .ERR then .error n.error
        else .ok ()
      | _ => .ok () := by
  have hreq :
      request false { marshalErr? := none, writeErr? := none, resolved? := some b }
          m.id rc =
        requestCache.Wait m.id
          (requestCache.Send m.id b (requestCache.Register m.id rc)) := rfl
  rw [Send]
  simp only [Bool.false_eq_true, if_false, hreq]
  generalize hW :
    requestCache.Wait m.id
      (requestCache.Send m.id b (requestCache.Register m.id rc)) = w
  have hw1 : w.1 = .ok b := hW ▸ Wait_after_resolve_fst m.id b rc
  obtain ⟨w1, w2⟩ := w
  simp only at hw1
  subst hw1
  cases b with
  | message msg2 => rfl
  | notif n => dsimp only; split_ifs <;> rfl
  | accessControlList a => rfl

/-! ## Claim theorems -/

/-- Claim C1: a MSG frame whose embedded `cid` matches a registered nested
waiter.  The code delivers the message to that waiter, but because `sendJWS`
reports not-delivered the message is ALSO enqueued on the unsolicited inbox —
contradicting the claim that a matched message is not placed on the inbox.
The second conjunct checks the claim's unmatched half, which does hold: with
no matching waiter the message lands in the inbox. -/
theorem reader_matched_cid_also_enqueued :
    readerStep { direct := [], nested := [("cid1", none)], inbox := [] }
      { header? := some { id := "w1", type := .MSG },
        msgBody? := some sampleNestedMsg, notifBody? := none, aclBody? := none } =
      .routed { direct := [], nested := [("cid1", some sampleNestedMsg)],
                inbox := [sampleNestedMsg] } ∧
    readerStep { direct := [], nested := [], inbox := [] }
      { header? := some { id := "w1", type := .MSG },
        msgBody? := some sampleNestedMsg, notifBody? := none, aclBody? := none } =
      .routed { direct := [], nested := [], inbox := [sampleNestedMsg] } := by
  exact ⟨by decide, by decide⟩

/-- Claim C2: with an id registered on the direct table and no resolve
delivered within the timeout, `Wait` returns the timeout error; after any
`Wait` (timeout or delivery) the id's entry is removed; re-registering the id
afterwards yields a fresh empty waiter; and after a delivery was consumed, a
second `Wait` on the same id times out. -/
theorem await_timeout_consumes_entry (id : String) (rc rcd : requestCache)
    (m : ProtoBody)
    (hempty : rc.lookup id = some none)
    (hfull : rcd.lookup id = some (some m)) :
    (requestCache.Wait id rc).1 = .error "request timed out" ∧
    (∀ rc2 : requestCache, (requestCache.Wait id rc2).2.lookup id = none) ∧
    (requestCache.Register id (requestCache.Wait id rc).2).lookup id =
      some none ∧
    (requestCache.Wait id rcd).1 = .ok m ∧
    (requestCache.Wait id (requestCache.Wait id rcd).2).1 =
      .error "request timed out" := by
  refine ⟨?_, fun rc2 => Wait_erases id rc2, lookup_Register id _, ?_, ?_⟩
  · simp [requestCache.Wait, hempty]
  · simp [requestCache.Wait, hfull]
  · have h2 : (requestCache.erase id rcd).lookup id = none := by
      rw [requestCache.erase]; exact lookup_filter_ne id rcd
    simp [requestCache.Wait, h2]

/-- Claim C2 witness: concrete run on id `"a"`. -/
theorem await_timeout_consumes_entry_witness :
    (requestCache.Wait "a" [("a", none)]).1 = .error "request timed out" :=
  (await_timeout_consumes_entry "a" [("a", none)]
    [("a", some (.notif { id := "a", type := .ACK, error := "" }))]
    (.notif { id := "a", type := .ACK, error := "" })
    (by decide) (by decide)).1

/-- Claim C3: `Send` on a closed session fails immediately with the closed
error and touches nothing; otherwise it registers the message id on the
direct table (the correlated delivery below only reaches the waiter because
`request` registered it), writes, and awaits the reply: a `Notification` of
type ACK yields success, type ERR yields the server's error text, any other
resolved value — a notification of another type, a message, or an ACL frame —
yields success. -/
theorem Send_semantics (env : RequestEnv) (m msg2 : Message)
    (a : AccessControlList) (n : Notification) (rc : requestCache) :
    Send true env m rc = (.error "connection is closed", rc) ∧
    (Send false { marshalErr? := none, writeErr? := none,
                  resolved? := some (.notif n) } m rc).1 =
      (if n.type = .ACK then .ok ()
       else if n.type = .ERR then .error n.error
       else .ok ()) ∧
    (Send false { marshalErr? := none, writeErr? := none,
                  resolved? := some (.message msg2) } m rc).1 = .ok () ∧
    (Send false { marshalErr? := none, writeErr? := none,
                  resolved? := some (.accessControlList a) } m rc).1 = .ok () := by
  refine ⟨by simp [Send], ?_, ?_, ?_⟩
  · rw [Send_resolved_fst]
  · rw [Send_resolved_fst]
  · rw [Send_resolved_fst]

/-- Claim C4: the handshake blocks for one reply decoded as a `Notification`;
ACK makes it succeed, ERR makes it fail with exactly the server-supplied
error text, and a reply of any other type fails with the protocol error. -/
theorem authenticate_semantics (n : Notification) :
    authenticate { marshalErr? := none, writeErr? := none, readErr? := none,
                   replyDecodeErr? := none, reply := n } =
      (if n.type = .ACK then .ok ()
       else if n.type = .ERR then .error n.error
       else .error "unknown authentication error") := by
  rcases n with ⟨nid, t, nerr⟩
  cases t <;> simp [authenticate]

/-- Claim C5 counterexample: an error that is neither a `net.Error` nor a
`*websocket.CloseError` does not qualify under the claim, yet the code's
`default` branch falls through into the retry loop and a reconnect attempt is
made. -/
theorem tryReconnect_unknown_error_attempts :
    tryReconnectAttempts true (.otherErr "protocol violation") = true ∧
    specQualifiesForReconnect (.otherErr "protocol violation") = false :=
  ⟨rfl, rfl⟩

/-- Claim C5 (amended): with reconnect enabled, a reconnect attempt is made
exactly when the error is a net timeout, an abnormal-closure close code, or
any error that is neither a `net.Error` nor a close error (the `default`
branch); non-timeout net errors and close errors with any other code
(including normal closure) make no attempt, as does everything with reconnect
disabled. -/
theorem tryReconnectAttempts_characterization (reconnect : Bool)
    (err : GoError) :
    tryReconnectAttempts reconnect err =
      (reconnect && amendedReconnectQualifies err) := by
  cases err with
  | netErr t m => cases reconnect <;> cases t <;> rfl
  | closeErr code m =>
    cases reconnect
    · rfl
    · by_cases h : code = CloseAbnormalClosure
      · simp [tryReconnectAttempts, amendedReconnectQualifies, h]
      · simp [tryReconnectAttempts, amendedReconnectQualifies, h]
  | otherErr m => cases reconnect <;> rfl

/-- Claim C6: a frame whose header fails to decode is dropped, and a MSG
frame whose body fails to decode is dropped (the claim's true halves) — but a
frame whose decoded header carries a type outside the reader's switch (here
AUTH) leaves the body target nil and the second unmarshal panics, killing the
reader loop, contradicting the claim's no-panic-no-exit half. -/
theorem reader_unknown_type_panics :
    readerStep { direct := [], nested := [], inbox := [] }
      { header? := none, msgBody? := none, notifBody? := none,
        aclBody? := none } = .dropped ∧
    readerStep { direct := [], nested := [], inbox := [] }
      { header? := some { id := "h1", type := .MSG },
        msgBody? := none, notifBody? := none, aclBody? := none } = .dropped ∧
    readerStep { direct := [], nested := [], inbox := [] }
      { header? := some { id := "h2", type := .AUTH },
        msgBody? := none, notifBody? := none, aclBody? := none } = .panicked :=
  ⟨rfl, rfl, rfl⟩

/-- Claim C7: `PermitSender(pattern, exp)` builds a PERMIT ACL frame whose
signed claim set has `iss` = the client's selfID, `jti` = the fresh uuid,
`exp` = now plus one minute, `acl_source` = the pattern and `acl_exp` = the
given expiry; a server ACK reply makes the call succeed and a server ERR
reply surfaces exactly the server's error text. -/
theorem PermitSender_semantics (selfID pattern : String) (now exp : Nat)
    (jti frameID nid errText : String) (key : PrivateKeyMaterial)
    (hkey : key.decodedBytes.length = ed25519SeedSize) :
    ((aclRule selfID now jti pattern (some exp)).lookup "iss" = some selfID ∧
     (aclRule selfID now jti pattern (some exp)).lookup "jti" = some jti ∧
     (aclRule selfID now jti pattern (some exp)).lookup "exp" =
       some (fmtRFC3339 (now + 60)) ∧
     (aclRule selfID now jti pattern (some exp)).lookup "acl_source" =
       some pattern ∧
     (aclRule selfID now jti pattern (some exp)).lookup "acl_exp" =
       some (fmtRFC3339 exp)) ∧
    PermitSender pattern exp
        { selfID := selfID, now := now, jti := jti, frameID := frameID,
          privateKey := key, marshalErr? := none, newSignerErr? := none,
          signErr? := none,
          requestResult := .ok (.notif { id := nid, type := .ACK, error := "" }) } =
      .sent { id := frameID, type := .ACL, command := .PERMIT,
              payload := .signedClaims (aclRule selfID now jti pattern (some exp)) }
        (.ok ()) ∧
    PermitSender pattern exp
        { selfID := selfID, now := now, jti := jti, frameID := frameID,
          privateKey := key, marshalErr? := none, newSignerErr? := none,
          signErr? := none,
          requestResult :=
            .ok (.notif { id := nid, type := .ERR, error := errText }) } =
      .sent { id := frameID, type := .ACL, command := .PERMIT,
              payload := .signedClaims (aclRule selfID now jti pattern (some exp)) }
        (.error errText) := by
  refine ⟨⟨?_, ?_, ?_, ?_, ?_⟩, ?_, ?_⟩
  · simp [aclRule, List.lookup_cons]
  · simp [aclRule, List.lookup_cons]
  · simp [aclRule, List.lookup_cons]
  · simp [aclRule, List.lookup_cons]
  · simp [aclRule, List.lookup_cons]
  · simp [PermitSender, acl, hkey]
  · simp [PermitSender, acl, hkey]

/-- Claim C7 witness: concrete permit of `"peer123"`. -/
theorem PermitSender_semantics_witness :
    PermitSender "peer123" 100
        { selfID := "me", now := 0, jti := "j1", frameID := "f1",
          privateKey := { decodedBytes := List.replicate 32 0, decodeOk := true },
          marshalErr? := none, newSignerErr? := none, signErr? := none,
          requestResult := .ok (.notif { id := "n1", type := .ACK, error := "" }) } =
      .sent { id := "f1", type := .ACL, command := .PERMIT,
              payload := .signedClaims (aclRule "me" 0 "j1" "peer123" (some 100)) }
        (.ok ()) :=
  (PermitSender_semantics "me" "peer123" 0 100 "j1" "f1" "n1" "bad pattern"
    { decodedBytes := List.replicate 32 0, decodeOk := true } (by decide)).2.1

/-- Claim C8: malformed private-key material.  The source discards the base64
decode error, so token generation does not return an error: it panics inside
`ed25519.NewKeyFromSeed`, and the ACL mandate-signing path panics the same
way — contradicting the claim that such failures surface as errors to the
caller with no panic. -/
theorem generateToken_malformed_key_panics :
    generateToken { decodedBytes := [], decodeOk := false }
        { newSignerErr? := none, signErr? := none, serializeErr? := none } =
      .panicked "ed25519: bad seed length" ∧
    acl .PERMIT "peer123" none
        { selfID := "me", now := 0, jti := "j1", frameID := "f1",
          privateKey := { decodedBytes := [], decodeOk := false },
          marshalErr? := none, newSignerErr? := none, signErr? := none,
          requestResult := .error "never sent" } =
      .panicked "ed25519: bad seed length" :=
  ⟨rfl, rfl⟩

/-- Claim C9: the first `Close()` returns after shutting the socket, the
reader's closure path then takes the writer down with it, and the second
`Close()` blocks forever on the unbuffered `closewriter` send with no live
receiver — contradicting the claim that the second call also returns. -/
theorem second_Close_blocks :
    ClientClose runningClient =
      some { writerAlive := true, readerAlive := true, wsOpen := false,
             closedFlag := false } ∧
    closeTwice = none :=
  ⟨rfl, rfl⟩

/-- Claim C10: the `AutoReconnect` option sets the reconnect flag to `true`
for every argument value, including `false`. -/
theorem AutoReconnect_ignores_argument (enabled : Bool) (c : ClientConfig) :
    AutoReconnect enabled c = .ok { c with reconnect := true } := rfl

end Messaging
